import Mathlib

/-!
Shallow embedding of `src/server.py` from the WebPlayer repository: a
single-file static HTTP development server.  The request-handler methods
(`guess_type`, `end_headers`) are embedded as pure functions; the server
lifecycle (`start_server` and the `__main__` block) is embedded as a
fuel-indexed trace-producing function over an environment oracle that
supplies the outcomes of the OS-level bind and serve operations.
-/

namespace WebPlayer

/-- Python strings are sequences of Unicode code points, modelled as `List Char`. -/
abbrev PyStr := List Char

/-- Python `s.endswith(suf)`: `suf` is a suffix of `s`. -/
def endswith (s suf : PyStr) : Bool := suf.isSuffixOf s

/-- `CustomHTTPRequestHandler.guess_type` (src/server.py lines 23-30).
The superclass delegate `super_guess` models `super().guess_type`, which the
source unpacks as a `(mimetype, encoding)` pair. -/
def guess_type (super_guess : PyStr → String × Option String) (path : PyStr) :
    String × Option String :=
  let mimetype := (super_guess path).1
  let encoding := (super_guess path).2
  if endswith path (".js".toList) then ("application/javascript", encoding)
  else if endswith path (".wasm".toList) then ("application/wasm", encoding)
  else (mimetype, encoding)

/-- The five header fields sent by `end_headers` (src/server.py lines 16-20),
in source order. -/
def cors_headers : List (String × String) :=
  [("Cross-Origin-Embedder-Policy", "require-corp"),
   ("Cross-Origin-Opener-Policy", "same-origin"),
   ("Access-Control-Allow-Origin", "*"),
   ("Access-Control-Allow-Methods", "GET, POST, OPTIONS"),
   ("Access-Control-Allow-Headers", "Content-Type")]

/-- `CustomHTTPRequestHandler.end_headers` (src/server.py lines 14-21): given
the headers already queued for the response, it unconditionally queues the
five fixed fields and then finalizes via the superclass. -/
def end_headers (sent : List (String × String)) : List (String × String) :=
  sent ++ cors_headers

/-- A finalized HTTP response: status code plus the complete header list. -/
structure Response where
  status : Nat
  headers : List (String × String)

/-- Every response the library emits, error responses included, finalizes its
headers through the overridden `end_headers`. -/
def finalize_response (status : Nat) (normal : List (String × String)) : Response :=
  { status := status, headers := end_headers normal }

/-- Outcome of `socketserver.TCPServer(("", port), handler)`. -/
inductive BindResult
  | ok
  | osError (errno : Int)
deriving DecidableEq

/-- Outcome of `httpd.serve_forever()`, which never returns normally: it is
left either by `KeyboardInterrupt` or by an `OSError`. -/
inductive ServeResult
  | keyboardInterrupt
  | osError (errno : Int)
deriving DecidableEq

/-- Environment oracle: what the OS does when the server binds a port and
when it serves on a bound port. -/
structure Env where
  bind : Int → BindResult
  serve : Int → ServeResult

/-- Observable events of an execution. -/
inductive Event
  | print (s : String)
  | chdir (dir : String)
  | bindAttempt (port : Int)
  | bindSuccess (port : Int)
  | serveLoop (port : Int)
deriving DecidableEq

/-- The errno value the source identifies with "Address already in use"
(src/server.py line 52). -/
def eADDRINUSE : Int := 48

/-- The startup banner printed on a successful bind (src/server.py lines 38-45). -/
def banner (port : Int) : List Event :=
  [.print "🚀 服务器启动成功!",
   .print s!"📍 本地访问: http://localhost:{port}",
   .print s!"🌐 网络访问: http://0.0.0.0:{port}",
   .print s!"🎬 原生播放器: http://localhost:{port}/native-player.html",
   .print s!"🔧 简单测试: http://localhost:{port}/simple.html",
   .print "",
   .print "按 Ctrl+C 停止服务器",
   .print (String.mk (List.replicate 50 '='))]

/-- The port-conflict diagnostic (src/server.py line 53). -/
def retry_msg (port : Int) : String :=
  s!"❌ 端口 {port} 已被占用，尝试使用端口 {port + 1}"

/-- The fatal-failure diagnostic (src/server.py line 56). -/
def fail_msg (errno : Int) : String :=
  s!"❌ 启动服务器失败: [Errno {errno}]"

/-- The single `except OSError as e` clause of `start_server`
(src/server.py lines 51-57).  `retry` is the recursive `start_server` call
available at that point; the value is the trace produced by the handler
together with `some code` for `sys.exit(code)` and `none` for a normal
return. -/
def handle_oserror (retry : Int → List Event × Option Nat) (port : Int)
    (errno : Int) : List Event × Option Nat :=
  if errno = eADDRINUSE then
    let r := retry (port + 1)
    (Event.print (retry_msg port) :: r.1, r.2)
  else
    ([Event.print (fail_msg errno)], some 1)

/-- `start_server` (src/server.py lines 32-57), indexed by fuel to account
for the unbounded recursion of the port-retry; exhausted fuel yields the
empty observation.  The `try` block covers both the bind and the serve
loop, so an `OSError` from either phase reaches `handle_oserror`;
`KeyboardInterrupt` is caught separately and returns normally after the
shutdown notice. -/
def start_server (env : Env) : Nat → Int → List Event × Option Nat
  | 0, _ => ([], none)
  | fuel + 1, port =>
    match env.bind port with
    | .ok =>
      let pre := Event.bindAttempt port :: Event.bindSuccess port ::
        (banner port ++ [Event.serveLoop port])
      match env.serve port with
      | .keyboardInterrupt => (pre ++ [Event.print "\n🛑 服务器已停止"], none)
      | .osError e =>
        let h := handle_oserror (start_server env fuel) port e
        (pre ++ h.1, h.2)
    | .osError e =>
      let h := handle_oserror (start_server env fuel) port e
      (Event.bindAttempt port :: h.1, h.2)

/-- Numeric value of an ASCII digit character. -/
def digitVal (c : Char) : Nat := c.toNat - 48

/-- Digits of a Python integer literal after its leading digit: ASCII digits
with single underscores allowed between digits. -/
def pyDigitsAux : List Char → Nat → Option Nat
  | [], acc => some acc
  | '_' :: c :: cs, acc =>
    if c.isDigit then pyDigitsAux cs (acc * 10 + digitVal c) else none
  | c :: cs, acc =>
    if c.isDigit then pyDigitsAux cs (acc * 10 + digitVal c) else none

/-- A nonempty ASCII digit run, leading digit required. -/
def pyDigits : List Char → Option Nat
  | [] => none
  | c :: cs => if c.isDigit then pyDigitsAux cs (digitVal c) else none

/-- Surrounding-whitespace strip, as `int` applies to its string argument. -/
def pyStrip (s : PyStr) : PyStr :=
  ((s.dropWhile Char.isWhitespace).reverse.dropWhile Char.isWhitespace).reverse

/-- Model of the standard-library delegate `int(s)` on a string argument:
optional surrounding whitespace, an optional sign, then a nonempty digit
run; `none` models the `ValueError` that `int` raises otherwise. -/
def python_int (s : PyStr) : Option Int :=
  match pyStrip s with
  | '-' :: rest => (pyDigits rest).map (fun n => -(n : Int))
  | '+' :: rest => (pyDigits rest).map (fun n => (n : Int))
  | cs => (pyDigits cs).map (fun n => (n : Int))

/-- The `__main__` block (src/server.py lines 59-72).  `script_dir` models
`os.path.dirname(os.path.abspath(__file__))` and `argv` models
`sys.argv[1:]`.  The result is the event trace together with the process
exit status: `sys.exit(1)` gives 1, and falling off the end gives 0. -/
def server_main (env : Env) (fuel : Nat) (script_dir : String)
    (argv : List PyStr) : List Event × Nat :=
  match argv with
  | [] =>
    let r := start_server env fuel 8000
    (Event.chdir script_dir :: r.1, r.2.getD 0)
  | a :: _ =>
    match python_int a with
    | none => ([Event.chdir script_dir, Event.print "❌ 端口号必须是数字"], 1)
    | some p =>
      let r := start_server env fuel p
      (Event.chdir script_dir :: r.1, r.2.getD 0)

/-- Sample environment: every bind succeeds and every serve loop ends with an
operator interrupt. -/
def env0 : Env :=
  { bind := fun _ => .ok, serve := fun _ => .keyboardInterrupt }

/-- Sample environment: port 8000 is occupied, every other port binds, and
serving ends with an operator interrupt. -/
def envBusy : Env :=
  { bind := fun p => if p = 8000 then .osError 48 else .ok,
    serve := fun _ => .keyboardInterrupt }

/-- Sample environment: every bind fails with errno 13 (permission denied). -/
def envDenied : Env :=
  { bind := fun _ => .osError 13, serve := fun _ => .keyboardInterrupt }

/-- Sample environment: every bind succeeds but the serve loop then raises an
`OSError` with the address-in-use errno. -/
def envFlaky : Env :=
  { bind := fun _ => .ok, serve := fun _ => .osError 48 }

/-!
## Helper lemmas
-/

/-- A suffix transports the last element. -/
theorem endswith_last {s suf : PyStr} (c : Char) (h : endswith s suf = true)
    (hc : suf.getLast? = some c) : s.getLast? = some c := by
  have hsuf : suf <:+ s := by simpa [endswith] using h
  obtain ⟨t, rfl⟩ := hsuf
  simp [List.getLast?_append, hc]

/-- A path ending in `.wasm` cannot also end in `.js`. -/
theorem endswith_wasm_not_js {path : PyStr}
    (h : endswith path (".wasm".toList) = true) :
    endswith path (".js".toList) = false := by
  cases hx : endswith path (".js".toList) with
  | false => rfl
  | true =>
    have h1 := endswith_last 'm' h (by decide)
    have h2 := endswith_last 's' hx (by decide)
    rw [h1] at h2
    exact absurd h2 (by decide)

/-- With fuel, the first event of `start_server` is the bind attempt on the
requested port, whatever the environment does. -/
theorem start_server_head (env : Env) (fuel : Nat) (port : Int) :
    (start_server env (fuel + 1) port).1.head? = some (Event.bindAttempt port) := by
  cases hb : env.bind port with
  | ok =>
    cases hs : env.serve port with
    | keyboardInterrupt => simp [start_server, hb, hs]
    | osError e => simp [start_server, hb, hs]
  | osError e => simp [start_server, hb]

/-- When the bind succeeds, the trace opens with the attempt and its
success. -/
theorem start_server_bound (env : Env) (fuel : Nat) (port : Int)
    (hb : env.bind port = .ok) :
    ∃ rest, (start_server env (fuel + 1) port).1 =
      Event.bindAttempt port :: Event.bindSuccess port :: rest := by
  cases hs : env.serve port with
  | keyboardInterrupt =>
    exact ⟨(banner port ++ [Event.serveLoop port]) ++ [Event.print "\n🛑 服务器已停止"],
      by simp [start_server, hb, hs]⟩
  | osError e =>
    exact ⟨(banner port ++ [Event.serveLoop port]) ++
        (handle_oserror (start_server env fuel) port e).1,
      by simp [start_server, hb, hs]⟩

/-!
## Claim theorems
-/

/-- Claim C1: the content-type inference returns exactly
`application/javascript` when the path ends with `.js`, exactly
`application/wasm` when it ends with `.wasm`, and otherwise the superclass
delegate's default guess; the two special-cased extensions override the
default in all cases. -/
theorem guess_type_policy (super_guess : PyStr → String × Option String)
    (path : PyStr) :
    (endswith path (".js".toList) = true →
      (guess_type super_guess path).1 = "application/javascript") ∧
    (endswith path (".wasm".toList) = true →
      (guess_type super_guess path).1 = "application/wasm") ∧
    (endswith path (".js".toList) = false →
      endswith path (".wasm".toList) = false →
      guess_type super_guess path = super_guess path) := by
  refine ⟨fun h => ?_, fun h => ?_, fun h1 h2 => ?_⟩
  · simp only [guess_type, h]
    simp
  · have hjs := endswith_wasm_not_js h
    simp only [guess_type, h, hjs]
    simp
  · simp only [guess_type, h1, h2]
    simp

/-- Witness for C1 at concrete paths and a concrete delegate. -/
theorem guess_type_policy_witness :
    (guess_type (fun _ => ("text/plain", none)) ("app.js".toList)).1 =
      "application/javascript" ∧
    (guess_type (fun _ => ("text/plain", none)) ("m.wasm".toList)).1 =
      "application/wasm" ∧
    guess_type (fun _ => ("text/html", none)) ("index.html".toList) =
      ("text/html", none) :=
  ⟨(guess_type_policy _ _).1 (by decide),
   (guess_type_policy _ _).2.1 (by decide),
   (guess_type_policy _ _).2.2 (by decide) (by decide)⟩

/-- Claim C2: every finalized response — any status, 404 included — carries
the five fixed header fields, appended unconditionally and in source order
as the final block before the headers finalize. -/
theorem end_headers_cors (status : Nat) (sent : List (String × String)) :
    (finalize_response status sent).headers = sent ++ cors_headers ∧
    cors_headers <:+ (finalize_response status sent).headers ∧
    (∀ pair ∈ cors_headers, pair ∈ (finalize_response status sent).headers) :=
  ⟨rfl, ⟨sent, rfl⟩, fun _ hp => List.mem_append_right _ hp⟩

/-- Witness for C2 on a concrete 404 response. -/
theorem end_headers_cors_witness :
    ("Cross-Origin-Embedder-Policy", "require-corp") ∈
      (finalize_response 404 [("Content-Type", "text/html")]).headers :=
  (end_headers_cors 404 [("Content-Type", "text/html")]).2.2 _
    (by simp [cors_headers])

/-- Claim C3: a bind failure with the address-in-use errno prints the
diagnostic and retries `start_server (port + 1)`; when `port + 1` then
binds, the trace shows the successful bind there and the run continues as
the retried call, without crashing. -/
theorem port_retry (env : Env) (fuel : Nat) (port : Int)
    (hbusy : env.bind port = .osError eADDRINUSE)
    (hfree : env.bind (port + 1) = .ok) :
    start_server env (fuel + 2) port =
      (Event.bindAttempt port :: Event.print (retry_msg port) ::
        (start_server env (fuel + 1) (port + 1)).1,
        (start_server env (fuel + 1) (port + 1)).2) ∧
    (start_server env (fuel + 2) port).1.take 4 =
      [Event.bindAttempt port, Event.print (retry_msg port),
       Event.bindAttempt (port + 1), Event.bindSuccess (port + 1)] := by
  have h2 : fuel + 2 = (fuel + 1) + 1 := rfl
  have heq : start_server env (fuel + 2) port =
      (Event.bindAttempt port :: Event.print (retry_msg port) ::
        (start_server env (fuel + 1) (port + 1)).1,
        (start_server env (fuel + 1) (port + 1)).2) := by
    rw [h2]
    simp [start_server, hbusy, handle_oserror]
  refine ⟨heq, ?_⟩
  obtain ⟨rest, hr⟩ := start_server_bound env fuel (port + 1) hfree
  rw [heq]
  simp [hr]

/-- Witness for C3: port 8000 occupied, retry binds 8001. -/
theorem port_retry_witness :
    (start_server envBusy 2 8000).1.take 4 =
      [Event.bindAttempt 8000, Event.print (retry_msg 8000),
       Event.bindAttempt 8001, Event.bindSuccess 8001] :=
  (port_retry envBusy 0 8000 (by decide) (by decide)).2

/-- Claim C4: a positional argument that does not parse as an integer prints
the error message and exits with status 1, and no bind is ever attempted. -/
theorem bad_port_argument (env : Env) (fuel : Nat) (dir : String) (a : PyStr)
    (h : python_int a = none) :
    server_main env fuel dir [a] =
      ([Event.chdir dir, Event.print "❌ 端口号必须是数字"], 1) ∧
    ∀ p, Event.bindAttempt p ∉ (server_main env fuel dir [a]).1 := by
  have he : server_main env fuel dir [a] =
      ([Event.chdir dir, Event.print "❌ 端口号必须是数字"], 1) := by
    simp [server_main, h]
  refine ⟨he, fun p => ?_⟩
  rw [he]
  simp

/-- Witness for C4 at the argument `abc`. -/
theorem bad_port_argument_witness :
    python_int ("abc".toList) = none ∧
    server_main env0 1 "srv" ["abc".toList] =
      ([Event.chdir "srv", Event.print "❌ 端口号必须是数字"], 1) :=
  ⟨by decide, (bad_port_argument env0 1 "srv" ("abc".toList) (by decide)).1⟩

/-- Claim C5: a bind failure with any errno other than address-in-use prints
the failure diagnostic and exits with status 1 (so, via `__main__`, the
process exit status is 1). -/
theorem fatal_bind_failure (env : Env) (fuel : Nat) (port : Int) (e : Int)
    (dir : String) (s : PyStr)
    (hb : env.bind port = .osError e) (hne : e ≠ eADDRINUSE) :
    start_server env (fuel + 1) port =
      ([Event.bindAttempt port, Event.print (fail_msg e)], some 1) ∧
    (python_int s = some port → (server_main env (fuel + 1) dir [s]).2 = 1) := by
  have he : start_server env (fuel + 1) port =
      ([Event.bindAttempt port, Event.print (fail_msg e)], some 1) := by
    simp [start_server, hb, handle_oserror, hne]
  refine ⟨he, fun hp => ?_⟩
  simp [server_main, hp, he]

/-- Witness for C5: permission-denied bind (errno 13) on port 8000. -/
theorem fatal_bind_failure_witness :
    start_server envDenied 1 8000 =
      ([Event.bindAttempt 8000, Event.print (fail_msg 13)], some 1) ∧
    (server_main envDenied 1 "srv" ["8000".toList]).2 = 1 :=
  ⟨(fatal_bind_failure envDenied 0 8000 13 "srv" ("8000".toList)
      (by decide) (by decide)).1,
   (fatal_bind_failure envDenied 0 8000 13 "srv" ("8000".toList)
      (by decide) (by decide)).2 (by decide)⟩

/-- Claim C6: an interrupt during serving exits the serve loop, prints the
shutdown notice as the last event (no further bind or accept events), and
the process terminates with exit status 0. -/
theorem interrupt_shutdown (env : Env) (fuel : Nat) (dir : String)
    (hb : env.bind 8000 = .ok) (hi : env.serve 8000 = .keyboardInterrupt) :
    server_main env (fuel + 1) dir [] =
      (Event.chdir dir :: Event.bindAttempt 8000 :: Event.bindSuccess 8000 ::
        (banner 8000 ++ [Event.serveLoop 8000, Event.print "\n🛑 服务器已停止"]),
        0) := by
  simp [server_main, start_server, hb, hi]

/-- Witness for C6 in the sample all-binds-succeed environment. -/
theorem interrupt_shutdown_witness :
    server_main env0 1 "srv" [] =
      (Event.chdir "srv" :: Event.bindAttempt 8000 :: Event.bindSuccess 8000 ::
        (banner 8000 ++ [Event.serveLoop 8000, Event.print "\n🛑 服务器已停止"]),
        0) :=
  interrupt_shutdown env0 0 "srv" rfl rfl

/-- Claim C7: with zero positional arguments, the server is started with
port 8000: the run is exactly `start_server` at 8000, and the first OS
action after the chdir is the bind attempt on 8000. -/
theorem default_port_8000 (env : Env) (fuel : Nat) (dir : String) :
    server_main env fuel dir [] =
      (Event.chdir dir :: (start_server env fuel 8000).1,
        ((start_server env fuel 8000).2).getD 0) ∧
    (server_main env (fuel + 1) dir []).1.tail.head? =
      some (Event.bindAttempt 8000) := by
  refine ⟨rfl, ?_⟩
  have hs := start_server_head env fuel 8000
  simp [server_main, hs]

/-- Claim C8: the first action of every invocation is the change of working
directory to the directory containing the entry point; it precedes every
bind attempt and every served request. -/
theorem chdir_first (env : Env) (fuel : Nat) (dir : String)
    (argv : List PyStr) :
    (server_main env fuel dir argv).1.head? = some (Event.chdir dir) := by
  cases argv with
  | nil => simp [server_main]
  | cons a rest =>
    cases h : python_int a with
    | none => simp [server_main, h]
    | some p => simp [server_main, h]

/-- Claim C9: the argument is validated only for integer parseability: any
integer string — zero, negative, above 65535 — is accepted and passed
unchanged to the bind attempt. -/
theorem port_unvalidated (env : Env) (fuel : Nat) (dir : String) (s : PyStr)
    (p : Int) (h : python_int s = some p) :
    (server_main env (fuel + 1) dir [s]).1.tail.head? =
      some (Event.bindAttempt p) := by
  have hs := start_server_head env fuel p
  simp [server_main, h, hs]

/-- Witness for C9 at a negative port and a port above 65535. -/
theorem port_unvalidated_witness :
    (python_int ("-1".toList) = some (-1) ∧
      (server_main env0 1 "srv" ["-1".toList]).1.tail.head? =
        some (Event.bindAttempt (-1))) ∧
    (python_int ("70000".toList) = some 70000 ∧
      (server_main env0 1 "srv" ["70000".toList]).1.tail.head? =
        some (Event.bindAttempt 70000)) ∧
    python_int ("0".toList) = some 0 :=
  ⟨⟨by decide, port_unvalidated env0 0 "srv" ("-1".toList) (-1) (by decide)⟩,
   ⟨by decide, port_unvalidated env0 0 "srv" ("70000".toList) 70000 (by decide)⟩,
   by decide⟩

/-- Claim C10: an `OSError` raised while the serve loop is running is routed
through the same `handle_oserror` retry-or-exit logic as an `OSError` from
the bind attempt. -/
theorem oserror_covers_serve (env : Env) (fuel : Nat) (port : Int) (e : Int)
    (hb : env.bind port = .ok) (hs : env.serve port = .osError e) :
    (start_server env (fuel + 1) port =
      ((Event.bindAttempt port :: Event.bindSuccess port ::
        (banner port ++ [Event.serveLoop port])) ++
          (handle_oserror (start_server env fuel) port e).1,
        (handle_oserror (start_server env fuel) port e).2)) ∧
    (∀ port' e', env.bind port' = .osError e' →
      start_server env (fuel + 1) port' =
        (Event.bindAttempt port' ::
          (handle_oserror (start_server env fuel) port' e').1,
          (handle_oserror (start_server env fuel) port' e').2)) := by
  constructor
  · simp [start_server, hb, hs]
  · intro port' e' hb'
    simp [start_server, hb']

/-- Witness for C10: serve-phase address-in-use error on port 5. -/
theorem oserror_covers_serve_witness :
    start_server envFlaky 1 5 =
      ((Event.bindAttempt 5 :: Event.bindSuccess 5 ::
        (banner 5 ++ [Event.serveLoop 5])) ++
          (handle_oserror (start_server envFlaky 0) 5 48).1,
        (handle_oserror (start_server envFlaky 0) 5 48).2) :=
  (oserror_covers_serve envFlaky 0 5 48 rfl rfl).1

end WebPlayer
